import Mathlib

/-!
Shallow embedding of the orchestration core of `src/App.tsx` (Digital Asset
Registry front end) and proofs about its operations.

The React component state is modelled as an explicit record `AppState`; each
handler of the source (`connectWallet`, `connectContract`, `registerAsset`,
`transferOwnership`, `verifyAsset`, `loadAssets`, the `accountsChanged`
listener) becomes a pure state-transformer.  The external contract handle is a
record of fallible call results (`Except`), so that every `await` that can
throw in the source is a `match` on an `Except` here.  Each mutating handler
additionally returns the list of observable events it performed, in order
(submission, finality wait, message report, catalog refresh), so that
sequencing claims can be stated as facts about the event list.
-/

namespace DigitalAssets

/-- One registry entry, as cached by the front end (interface `Asset` of the
source: fields `id`, `name`, `hash`, `owner`, `timestamp`). -/
structure Asset where
  id : Nat
  name : String
  hash : String
  owner : String
  timestamp : Nat
deriving Repr, DecidableEq

/-- Result tuple of the `getAsset(id)` contract call:
`(name, hash, owner, timestamp)`. -/
structure AssetData where
  name : String
  hash : String
  owner : String
  timestamp : Nat
deriving Repr, DecidableEq

/-- The pending-transaction handle returned by a mutating contract call; its
`wait` models `tx.wait()`, which either resolves or throws. -/
structure PendingTx where
  wait : Except String Unit

/-- The bound contract handle (an `ethers.Contract`).  Every call in the
source is an `await` that may throw; here each is an `Except` (for reads) or
yields a `PendingTx` (for writes). -/
structure Contract where
  assetCount : Except String Nat
  getAsset : Nat → Except String AssetData
  verifyAsset : Nat → String → Except String Bool
  registerSubmit : String → String → Except String PendingTx
  transferSubmit : Nat → String → Except String PendingTx

/-- The React component state.  The `provider` state variable of the source is
omitted: it is written once and never read by the core logic.  The `signer`
field records presence of a signer (`signer !== null`); `contract` is the
bound handle or `none`; the six trailing strings are the controlled form
fields. -/
structure AppState where
  signer : Bool
  contract : Option Contract
  account : String
  assets : List Asset
  message : String
  loading : Bool
  assetName : String
  assetHash : String
  verifyAssetId : String
  verifyHash : String
  transferAssetId : String
  transferTo : String

/-- Observable events of one handler execution, in program order.
`submitReg`/`submitTr` are the mutating contract calls (the only points where
a write reaches the ledger), `waitFin` is `tx.wait()` resolving, `report` is a
`setMessage` call (`okPath = true` on the try path, `false` on a catch or
early-warning path), `refresh` is the start of a `loadAssets` bulk re-fetch. -/
inductive Ev where
  | submitReg (name hash : String)
  | submitTr (id : Nat) (dest : String)
  | waitFin
  | report (okPath : Bool) (msg : String)
  | refresh
deriving Repr, DecidableEq

/-- Abstraction of the JavaScript `Number(...)` conversion applied to the
digit strings produced by the numeric input fields (`Number("") = 0`, and a
`type="number"` input only yields digit strings or the empty string). -/
def jsNumberNat (s : String) : Nat :=
  s.data.foldl (fun acc ch => acc * 10 + (ch.toNat - 48)) 0

/-- Builds an `Asset` record from the `getAsset` result, as the loop body of
`loadAssets` does. -/
def mkAsset (i : Nat) (d : AssetData) : Asset :=
  { id := i, name := d.name, hash := d.hash, owner := d.owner,
    timestamp := d.timestamp }

/-- The body of the `for (let i = 1; i <= count; i++)` loop of `loadAssets`:
reads assets `1..n` in ascending id order, appending each to the local list;
the first failing read aborts the whole construction (the exception
propagates to the catch of `loadAssets`). -/
def fetchAssets (c : Contract) : Nat → Except String (List Asset)
  | 0 => .ok []
  | n + 1 =>
    match fetchAssets c n with
    | .error e => .error e
    | .ok l =>
      match c.getAsset (n + 1) with
      | .error e => .error e
      | .ok d => .ok (l ++ [mkAsset (n + 1) d])

/-- The `loadAssets` handler, given the contract to use (the source resolves
`c || contract` first; see `clickRefresh` for the button path).  Reads
`assetCount`, then each asset in ascending order into a local list, and only
then stores the list with a single `setAssets`; any throw lands in the catch,
which only sets the error message. -/
def loadAssetsTr (c : Contract) (s : AppState) : AppState × List Ev :=
  match c.assetCount with
  | .error e =>
    ({ s with message := "❌ Error loading assets: " ++ e },
     [.refresh, .report false ("❌ Error loading assets: " ++ e)])
  | .ok n =>
    match fetchAssets c n with
    | .error e =>
      ({ s with message := "❌ Error loading assets: " ++ e },
       [.refresh, .report false ("❌ Error loading assets: " ++ e)])
    | .ok l => ({ s with assets := l }, [.refresh])

/-- The Refresh button path of `loadAssets`: no argument is passed, so the
state contract is used, and a missing contract returns silently. -/
def clickRefresh (s : AppState) : AppState × List Ev :=
  match s.contract with
  | none => (s, [])
  | some c => loadAssetsTr c s

theorem fetchAssets_ok_length (c : Contract) :
    ∀ n l, fetchAssets c n = .ok l → l.length = n := by
  intro n
  induction n with
  | zero => intro l h; simp [fetchAssets] at h; simp [← h]
  | succ n ih =>
    intro l h
    simp only [fetchAssets] at h
    cases hf : fetchAssets c n with
    | error e => rw [hf] at h; exact absurd h (by simp)
    | ok l0 =>
      rw [hf] at h
      cases hg : c.getAsset (n + 1) with
      | error e => rw [hg] at h; exact absurd h (by simp)
      | ok d =>
        rw [hg] at h
        simp only [Except.ok.injEq] at h
        subst h
        simp [ih l0 hf]

theorem fetchAssets_ok_ids (c : Contract) :
    ∀ n l, fetchAssets c n = .ok l →
      l.map Asset.id = (List.range n).map (fun j => j + 1) := by
  intro n
  induction n with
  | zero => intro l h; simp [fetchAssets] at h; simp [← h]
  | succ n ih =>
    intro l h
    simp only [fetchAssets] at h
    cases hf : fetchAssets c n with
    | error e => rw [hf] at h; exact absurd h (by simp)
    | ok l0 =>
      rw [hf] at h
      cases hg : c.getAsset (n + 1) with
      | error e => rw [hg] at h; exact absurd h (by simp)
      | ok d =>
        rw [hg] at h
        simp only [Except.ok.injEq] at h
        subst h
        simp [List.range_succ, ih l0 hf, mkAsset]

/-- The `registerAsset` handler.  A missing contract returns silently
(`if (!contract) return`).  Otherwise: the loading flag is raised, the write
is submitted with the form fields as given (no validation), `tx.wait()` is
awaited, the success message is set, the form fields are cleared, the catalog
is re-fetched, and `finally` lowers the loading flag.  Any throw lands in the
catch, which sets the error message; `finally` still runs. -/
def registerAssetTr (s : AppState) : AppState × List Ev :=
  match s.contract with
  | none => (s, [])
  | some c =>
    match c.registerSubmit s.assetName s.assetHash with
    | .error e =>
      ({ s with loading := false,
                message := "❌ Error registering asset: " ++ e },
       [.submitReg s.assetName s.assetHash,
        .report false ("❌ Error registering asset: " ++ e)])
    | .ok tx =>
      match tx.wait with
      | .error e =>
        ({ s with loading := false,
                  message := "❌ Error registering asset: " ++ e },
         [.submitReg s.assetName s.assetHash, .waitFin,
          .report false ("❌ Error registering asset: " ++ e)])
      | .ok _ =>
        match loadAssetsTr c
            { s with loading := true,
                     message := "✅ Asset registered successfully!",
                     assetName := "", assetHash := "" } with
        | (s2, evs) =>
          ({ s2 with loading := false },
           [.submitReg s.assetName s.assetHash, .waitFin,
            .report true "✅ Asset registered successfully!"] ++ evs)

/-- The `transferOwnership` handler, mirroring `registerAssetTr`: submits
`Number(transferAssetId)` and `transferTo` unvalidated, waits for finality,
reports, clears the form fields, re-fetches, and always lowers the loading
flag. -/
def transferOwnershipTr (s : AppState) : AppState × List Ev :=
  match s.contract with
  | none => (s, [])
  | some c =>
    match c.transferSubmit (jsNumberNat s.transferAssetId) s.transferTo with
    | .error e =>
      ({ s with loading := false,
                message := "❌ Error transferring ownership: " ++ e },
       [.submitTr (jsNumberNat s.transferAssetId) s.transferTo,
        .report false ("❌ Error transferring ownership: " ++ e)])
    | .ok tx =>
      match tx.wait with
      | .error e =>
        ({ s with loading := false,
                  message := "❌ Error transferring ownership: " ++ e },
         [.submitTr (jsNumberNat s.transferAssetId) s.transferTo, .waitFin,
          .report false ("❌ Error transferring ownership: " ++ e)])
      | .ok _ =>
        match loadAssetsTr c
            { s with loading := true,
                     message := "✅ Ownership transferred!",
                     transferAssetId := "", transferTo := "" } with
        | (s2, evs) =>
          ({ s2 with loading := false },
           [.submitTr (jsNumberNat s.transferAssetId) s.transferTo, .waitFin,
            .report true "✅ Ownership transferred!"] ++ evs)

/-- The `verifyAsset` handler: a missing contract returns silently; otherwise
the contract read is awaited and its boolean mapped to the valid/mismatch
message, with the catch handling a throw. -/
def verifyAssetTr (s : AppState) : AppState × List Ev :=
  match s.contract with
  | none => (s, [])
  | some c =>
    match c.verifyAsset (jsNumberNat s.verifyAssetId) s.verifyHash with
    | .ok true =>
      ({ s with message := "✅ Asset hash is valid!" },
       [.report true "✅ Asset hash is valid!"])
    | .ok false =>
      ({ s with message := "❌ Asset hash mismatch!" },
       [.report true "❌ Asset hash mismatch!"])
    | .error e =>
      ({ s with message := "❌ Error verifying asset: " ++ e },
       [.report false ("❌ Error verifying asset: " ++ e)])

/-- Disabled condition of the Register and Transfer buttons:
`disabled={!contract || loading}`. -/
def mutateDisabled (s : AppState) : Bool := s.contract.isNone || s.loading

/-- A click of the Register button: a disabled button does nothing at all,
otherwise the handler runs. -/
def clickRegister (s : AppState) : AppState × List Ev :=
  if mutateDisabled s then (s, []) else registerAssetTr s

/-- A click of the Transfer button: a disabled button does nothing at all,
otherwise the handler runs. -/
def clickTransfer (s : AppState) : AppState × List Ev :=
  if mutateDisabled s then (s, []) else transferOwnershipTr s

/-- The wallet-provider environment seen by `connectWallet`:
`hasProvider` is `window.ethereum` being present, `requestSigner` models
`provider.getSigner()` followed by `signer.getAddress()` (yielding the active
address, or throwing). -/
structure WalletEnv where
  hasProvider : Bool
  requestSigner : Except String String

/-- Listener registrations held by the wallet provider: the callbacks passed
to `window.ethereum.on("accountsChanged", ...)`, in registration order.  Each
callback maps the delivered identity list and the current component state to
the next state. -/
structure ProviderState where
  listeners : List (List String → AppState → AppState)

/-- The `accountsChanged` callback registered by `connectWallet`:
`setAccount(accounts[0] || "")`.  Nothing else in the component state is
touched. -/
def accountsChangedHandler (accounts : List String) (s : AppState) : AppState :=
  { s with account := accounts.headD "" }

/-- The `connectWallet` handler: without a provider it reports the warning
and stops; otherwise the signer request either throws (caught, error
message) or succeeds, in which case the signer is stored, the account is set,
one more `accountsChanged` listener is registered with the provider, and the
success message is set. -/
def connectWallet (env : WalletEnv) (s : AppState) (p : ProviderState) :
    AppState × ProviderState × List Ev :=
  if env.hasProvider then
    match env.requestSigner with
    | .error e =>
      ({ s with message := "❌ Error connecting wallet: " ++ e }, p,
       [.report false ("❌ Error connecting wallet: " ++ e)])
    | .ok addr =>
      ({ s with signer := true, account := addr,
                message := "✅ Wallet connected successfully!" },
       { p with listeners := p.listeners ++ [accountsChangedHandler] },
       [.report true "✅ Wallet connected successfully!"])
  else
    ({ s with message := "⚠️ MetaMask not detected. Please install it." }, p,
     [.report false "⚠️ MetaMask not detected. Please install it."])

/-- The `connectContract` handler: without a signer it reports the warning;
otherwise it binds the given contract handle, reports success, and runs an
initial `loadAssets(c)`. -/
def connectContract (c : Contract) (s : AppState) : AppState × List Ev :=
  if s.signer then
    match loadAssetsTr c
        { s with contract := some c, message := "✅ Connected to contract!" } with
    | (s2, evs) => (s2, [.report true "✅ Connected to contract!"] ++ evs)
  else
    ({ s with message := "⚠️ Connect wallet first!" },
     [.report false "⚠️ Connect wallet first!"])

/-- Delivery of one `accountsChanged` event by the provider: every registered
listener is invoked, in registration order. -/
def dispatchAccountsChanged (p : ProviderState) (accounts : List String)
    (s : AppState) : AppState :=
  p.listeners.foldl (fun st h => h accounts st) s

/-- Sequence of `n` calls of `connectWallet` against the same environment. -/
def connectN (env : WalletEnv) : Nat → AppState × ProviderState → AppState × ProviderState
  | 0, sp => sp
  | n + 1, sp =>
    match connectWallet env sp.1 sp.2 with
    | (s2, p2, _) => connectN env n (s2, p2)

/-- Severity class attached to the status message banner:
`message.includes("❌") ? "error" : "success"`.  The mark `❌` is a single
character, so the test is character containment. -/
def messageSeverity (msg : String) : String :=
  if msg.data.contains '❌' then "error" else "success"

/-- Modelled from the spec: the `verifyAsset` view of the
`DigitalAssetRegistry` contract itself is not under `src/` (only its ABI and
callers are).  Per the spec it returns whether `hash` equals the stored
content hash of asset `id`, and a non-existent `id` (outside
`[1, assetCount]`) yields a read error rather than `false`.  The ledger is
represented by its asset list, with asset `id` at position `id - 1`. -/
def ledgerVerify (assets : List Asset) (id : Nat) (hash : String) :
    Except String Bool :=
  if id = 0 then .error "ReadError"
  else
    match assets.get? (id - 1) with
    | some a => .ok (a.hash == hash)
    | none => .error "ReadError"

/-- The component state on mount: nothing connected, all fields empty. -/
def initialState : AppState :=
  { signer := false, contract := none, account := "", assets := [],
    message := "", loading := false, assetName := "", assetHash := "",
    verifyAssetId := "", verifyHash := "", transferAssetId := "",
    transferTo := "" }

section Fixtures

/-- Sample `getAsset` payload used by the concrete test contract. -/
def demoData1 : AssetData :=
  { name := "Deed A", hash := "0xabc", owner := "0xAA", timestamp := 100 }

/-- Sample one-asset ledger contents. -/
def demoLedger : List Asset := [mkAsset 1 demoData1]

/-- Concrete contract handle on which every call succeeds: one registered
asset, verification backed by `ledgerVerify`, both writes confirm. -/
def okContract : Contract :=
  { assetCount := .ok 1
    getAsset := fun i => if i = 1 then .ok demoData1 else .error "missing"
    verifyAsset := fun i h => ledgerVerify demoLedger i h
    registerSubmit := fun _ _ => .ok { wait := .ok () }
    transferSubmit := fun _ _ => .ok { wait := .ok () } }

/-- Concrete contract handle whose second `getAsset` read throws, for the
failing-read scenarios. -/
def failContract : Contract :=
  { assetCount := .ok 2
    getAsset := fun i => if i = 1 then .ok demoData1 else .error "boom"
    verifyAsset := fun _ _ => .error "boom"
    registerSubmit := fun _ _ => .error "boom"
    transferSubmit := fun _ _ => .error "boom" }

/-- Concrete contract handle on which every call throws. -/
def stubContract : Contract :=
  { assetCount := .error "stub"
    getAsset := fun _ => .error "stub"
    verifyAsset := fun _ _ => .error "stub"
    registerSubmit := fun _ _ => .error "stub"
    transferSubmit := fun _ _ => .error "stub" }

end Fixtures

/-- C1: `loadAssets` reads `assetCount`, then assets `1..assetCount` in
ascending id order, and replaces the cached snapshot atomically with the one
`setAssets` call; if the count read or any individual asset read fails, the
handler only sets the load-error message and the previously cached snapshot
(and all other state) is left exactly equal to its pre-call value. -/
theorem loadAssets_atomic_replace (c : Contract) (s : AppState) :
    (∀ e, c.assetCount = .error e →
      (loadAssetsTr c s).1 = { s with message := "❌ Error loading assets: " ++ e }) ∧
    (∀ n, c.assetCount = .ok n →
      (∀ e, fetchAssets c n = .error e →
        (loadAssetsTr c s).1 = { s with message := "❌ Error loading assets: " ++ e }) ∧
      (∀ l, fetchAssets c n = .ok l →
        (loadAssetsTr c s).1 = { s with assets := l } ∧ l.length = n ∧
        l.map Asset.id = (List.range n).map (fun j => j + 1))) := by
  refine ⟨?_, ?_⟩
  · intro e he
    simp only [loadAssetsTr, he]
  · intro n hn
    refine ⟨?_, ?_⟩
    · intro e he
      simp only [loadAssetsTr, hn, he]
    · intro l hl
      simp only [loadAssetsTr, hn, hl]
      exact ⟨trivial, fetchAssets_ok_length c n l hl, fetchAssets_ok_ids c n l hl⟩

/-- Witness for C1 at a concrete input: on the contract whose read of asset 2
throws, the refresh leaves the state untouched except for the error message
(in particular the cached snapshot is intact). -/
theorem loadAssets_atomic_replace_witness :
    (loadAssetsTr failContract initialState).1 =
      { initialState with message := "❌ Error loading assets: boom" } ∧
    (loadAssetsTr failContract initialState).1.assets = initialState.assets := by
  have h := ((loadAssets_atomic_replace failContract initialState).2 2 rfl).1 "boom" rfl
  exact ⟨h, by rw [h]⟩

/-- Recognizer for the catalog-refresh event. -/
def isRefreshEv : Ev → Bool := fun ev =>
  match ev with
  | .refresh => true
  | _ => false

/-- Recognizer for a success (try-path) message report. -/
def isSuccessReport : Ev → Bool := fun ev =>
  match ev with
  | .report true _ => true
  | _ => false

/-- Recognizer for a mutating submission reaching the ledger. -/
def isSubmitEv : Ev → Bool := fun ev =>
  match ev with
  | .submitReg _ _ => true
  | .submitTr _ _ => true
  | _ => false

/-- The ordering the spec asserts for a confirmed mutation: the catalog
refresh occurs strictly before the success report in the event list. -/
def refreshPrecedesSuccessReport (tr : List Ev) : Prop :=
  tr.findIdx isRefreshEv < tr.findIdx isSuccessReport

instance (tr : List Ev) : Decidable (refreshPrecedesSuccessReport tr) :=
  Nat.decLt _ _

/-- State in which a register call is about to succeed against
`okContract`. -/
def s0reg : AppState :=
  { initialState with signer := true, contract := some okContract,
                      assetName := "Deed A", assetHash := "0xabc" }

/-- Event lists of `loadAssetsTr` always start with the refresh marker. -/
theorem loadAssetsTr_events_head (c : Contract) (s : AppState) :
    ∃ rest, (loadAssetsTr c s).2 = .refresh :: rest := by
  cases hc : c.assetCount with
  | error e =>
    exact ⟨[.report false ("❌ Error loading assets: " ++ e)],
           by simp only [loadAssetsTr, hc]⟩
  | ok n =>
    cases hf : fetchAssets c n with
    | error e =>
      exact ⟨[.report false ("❌ Error loading assets: " ++ e)],
             by simp only [loadAssetsTr, hc, hf]⟩
    | ok l => exact ⟨[], by simp only [loadAssetsTr, hc, hf]⟩

/-- Counterexample to C2 at a concrete input: on a confirmed register against
`okContract`, the emitted event list is submission, finality wait, success
report, and only then the catalog refresh — the refresh does not precede the
report, so the claimed "refresh completes before success is reported" order
is violated on the confirmed path. -/
theorem registerAsset_reports_before_refresh_cex :
    (registerAssetTr s0reg).2 =
      [.submitReg "Deed A" "0xabc", .waitFin,
       .report true "✅ Asset registered successfully!", .refresh] ∧
    (registerAssetTr s0reg).2.any isRefreshEv = true ∧
    (registerAssetTr s0reg).2.any isSuccessReport = true ∧
    ¬ refreshPrecedesSuccessReport (registerAssetTr s0reg).2 := by
  refine ⟨by decide, by decide, by decide, by decide⟩

/-- C2 amended: within one confirmed mutating operation the events occur in
the order submission, finality wait, success report, catalog refresh — the
success message is set before `loadAssets` runs, not after it. -/
theorem mutation_event_order (s : AppState) (c : Contract)
    (hc : s.contract = some c) :
    (∀ tx, c.registerSubmit s.assetName s.assetHash = .ok tx →
      tx.wait = .ok () →
      ∃ rest, (registerAssetTr s).2 =
        [.submitReg s.assetName s.assetHash, .waitFin,
         .report true "✅ Asset registered successfully!", .refresh] ++ rest) ∧
    (∀ tx, c.transferSubmit (jsNumberNat s.transferAssetId) s.transferTo = .ok tx →
      tx.wait = .ok () →
      ∃ rest, (transferOwnershipTr s).2 =
        [.submitTr (jsNumberNat s.transferAssetId) s.transferTo, .waitFin,
         .report true "✅ Ownership transferred!", .refresh] ++ rest) := by
  constructor
  · intro tx hsub hwait
    obtain ⟨rest, hrest⟩ := loadAssetsTr_events_head c
      { s with contract := some c, loading := true,
               message := "✅ Asset registered successfully!",
               assetName := "", assetHash := "" }
    refine ⟨rest, ?_⟩
    simp only [registerAssetTr, hc, hsub, hwait]
    cases hload : loadAssetsTr c
        { s with contract := some c, loading := true,
                 message := "✅ Asset registered successfully!",
                 assetName := "", assetHash := "" } with
    | mk s2 evs =>
      rw [hload] at hrest
      have h2 : evs = Ev.refresh :: rest := hrest
      simp [h2]
  · intro tx hsub hwait
    obtain ⟨rest, hrest⟩ := loadAssetsTr_events_head c
      { s with contract := some c, loading := true,
               message := "✅ Ownership transferred!",
               transferAssetId := "", transferTo := "" }
    refine ⟨rest, ?_⟩
    simp only [transferOwnershipTr, hc, hsub, hwait]
    cases hload : loadAssetsTr c
        { s with contract := some c, loading := true,
                 message := "✅ Ownership transferred!",
                 transferAssetId := "", transferTo := "" } with
    | mk s2 evs =>
      rw [hload] at hrest
      have h2 : evs = Ev.refresh :: rest := hrest
      simp [h2]

/-- Witness for the amended C2 at a concrete input: the confirmed register
against `okContract` emits exactly the submission, wait, report, refresh
sequence. -/
theorem mutation_event_order_witness :
    ∃ rest, (registerAssetTr s0reg).2 =
      [.submitReg "Deed A" "0xabc", .waitFin,
       .report true "✅ Asset registered successfully!", .refresh] ++ rest :=
  (mutation_event_order s0reg okContract rfl).1 { wait := .ok () } rfl rfl

/-- State in which the coordinator is busy (loading flag set) and a register
could nevertheless succeed against `okContract`. -/
def sBusy : AppState := { s0reg with loading := true }

/-- Counterexample to C3 at a concrete input: with the loading flag already
set and a bound contract, a direct second `registerAsset` call is not
rejected — no `OperationInProgress` failure exists anywhere in the code.  The
call submits to the ledger (a submit event is emitted), replaces the cached
catalog, and ends with the ordinary success message. -/
theorem busy_mutation_not_rejected_cex :
    sBusy.loading = true ∧
    (registerAssetTr sBusy).2.any isSubmitEv = true ∧
    (registerAssetTr sBusy).1.assets ≠ sBusy.assets ∧
    (registerAssetTr sBusy).1.message = "✅ Asset registered successfully!" := by
  refine ⟨rfl, by decide, by decide, by decide⟩

/-- C3 amended: mutual exclusion only exists at the presentation boundary —
the Register and Transfer buttons are disabled while the loading flag is set,
so a busy-time attempt through the UI is a silent no-op (state unchanged, no
event, no reported failure of any kind); the handler functions themselves
never check the flag. -/
theorem busy_click_is_silent (s : AppState) (h : s.loading = true) :
    clickRegister s = (s, []) ∧ clickTransfer s = (s, []) := by
  constructor
  · simp [clickRegister, mutateDisabled, h]
  · simp [clickTransfer, mutateDisabled, h]

/-- Witness for the amended C3 at a concrete input: with the loading flag
set, clicking either mutating button changes nothing. -/
theorem busy_click_is_silent_witness :
    clickRegister sBusy = (sBusy, []) ∧ clickTransfer sBusy = (sBusy, []) :=
  busy_click_is_silent sBusy rfl

/-- C4: whenever a mutating handler actually runs (a contract is bound, or
the handler was entered with the loading flag down and returns without doing
anything), the loading flag is false when it returns: every path of
`registerAsset` and `transferOwnership` — submission rejected, finality wait
throwing, refresh failing, or success — ends in the `finally` that lowers the
flag. -/
theorem mutation_resets_loading (s : AppState)
    (h : s.contract.isSome = true ∨ s.loading = false) :
    (registerAssetTr s).1.loading = false ∧
    (transferOwnershipTr s).1.loading = false := by
  cases hc : s.contract with
  | none =>
    rcases h with h | h
    · rw [hc] at h; exact absurd h (by simp)
    · constructor
      · simp only [registerAssetTr, hc]; exact h
      · simp only [transferOwnershipTr, hc]; exact h
  | some c =>
    constructor
    · simp only [registerAssetTr, hc]
      cases hsub : c.registerSubmit s.assetName s.assetHash with
      | error e => simp [hsub]
      | ok tx =>
        cases hwait : tx.wait with
        | error e => simp [hsub, hwait]
        | ok u => simp only [hsub, hwait]
    · simp only [transferOwnershipTr, hc]
      cases hsub : c.transferSubmit (jsNumberNat s.transferAssetId) s.transferTo with
      | error e => simp [hsub]
      | ok tx =>
        cases hwait : tx.wait with
        | error e => simp [hsub, hwait]
        | ok u => simp only [hsub, hwait]

/-- Witness for C4 at a concrete input: entering busy with a bound contract
on which the finality wait throws, both handlers still return with the
loading flag down. -/
theorem mutation_resets_loading_witness :
    (registerAssetTr { sBusy with contract := some failContract }).1.loading = false ∧
    (transferOwnershipTr { sBusy with contract := some failContract }).1.loading = false :=
  mutation_resets_loading { sBusy with contract := some failContract } (Or.inl rfl)

/-- Wallet environment with no provider reachable. -/
def noProviderEnv : WalletEnv :=
  { hasProvider := false, requestSigner := .error "no provider" }

/-- Provider with no registered listeners. -/
def emptyProvider : ProviderState := { listeners := [] }

/-- State in which a verify with a wrong hash runs against `okContract`. -/
def sVerifyMismatch : AppState :=
  { initialState with signer := true, contract := some okContract,
                      verifyAssetId := "1", verifyHash := "0xZZZ" }

/-- Counterexample to C5 at concrete inputs: the displayed severity is the
result of scanning the message text for the mark `❌`, not of any outcome
tag.  The no-provider failure of `connectWallet` (a failure-path report) is
displayed with severity `success` because its warning text carries `⚠️` and
not `❌`; conversely a verify whose read completes normally (a try-path
report) but finds a hash mismatch is displayed with severity `error`. -/
theorem severity_not_from_tag_cex :
    (connectWallet noProviderEnv initialState emptyProvider).2.2 =
      [.report false "⚠️ MetaMask not detected. Please install it."] ∧
    messageSeverity
      (connectWallet noProviderEnv initialState emptyProvider).1.message =
      "success" ∧
    (verifyAssetTr sVerifyMismatch).2 =
      [.report true "❌ Asset hash mismatch!"] ∧
    messageSeverity (verifyAssetTr sVerifyMismatch).1.message = "error" := by
  refine ⟨by decide, by decide, by decide, by decide⟩

/-- C5 amended: the displayed severity is derived from the message text
alone — `error` exactly when the text contains the character `❌`, otherwise
`success`.  In consequence every catch-path message (prefixed `❌ Error ...`)
shows as `error`, every `✅` message shows as `success`, but the two `⚠️`
failure warnings show as `success` and the mismatch result of a completed
verify shows as `error`. -/
theorem severity_from_text (e : String) :
    messageSeverity ("❌ Error registering asset: " ++ e) = "error" ∧
    messageSeverity ("❌ Error transferring ownership: " ++ e) = "error" ∧
    messageSeverity ("❌ Error loading assets: " ++ e) = "error" ∧
    messageSeverity ("❌ Error verifying asset: " ++ e) = "error" ∧
    messageSeverity ("❌ Error connecting wallet: " ++ e) = "error" ∧
    messageSeverity "⚠️ MetaMask not detected. Please install it." = "success" ∧
    messageSeverity "⚠️ Connect wallet first!" = "success" ∧
    messageSeverity "✅ Wallet connected successfully!" = "success" ∧
    messageSeverity "✅ Connected to contract!" = "success" ∧
    messageSeverity "✅ Asset registered successfully!" = "success" ∧
    messageSeverity "✅ Ownership transferred!" = "success" ∧
    messageSeverity "✅ Asset hash is valid!" = "success" ∧
    messageSeverity "❌ Asset hash mismatch!" = "error" := by
  have hcross : ∀ a : String, ('❌' ∈ a.data) →
      messageSeverity (a ++ e) = "error" := by
    intro a ha
    have h : ('❌' ∈ (a ++ e).data) := by
      rw [String.data_append]
      exact List.mem_append_left _ ha
    have h2 : ((a ++ e).data.contains '❌') = true :=
      List.elem_eq_true_of_mem h
    unfold messageSeverity
    rw [h2]
    rfl
  refine ⟨hcross _ (by decide), hcross _ (by decide), hcross _ (by decide),
          hcross _ (by decide), hcross _ (by decide), by decide, by decide,
          by decide, by decide, by decide, by decide, by decide, by decide⟩

/-- State whose register name is the empty string (empty after trimming). -/
def sBlankName : AppState :=
  { initialState with signer := true, contract := some okContract,
                      assetName := "", assetHash := "0xabc" }

/-- State whose transfer id is out of range (the ledger holds one asset) and
whose new owner is not an address. -/
def sBadTransfer : AppState :=
  { initialState with signer := true, contract := some okContract,
                      transferAssetId := "99", transferTo := "not-an-address" }

/-- Counterexample to C6 at concrete inputs: no input validation exists.  A
register whose name is `" "` (empty after trimming) submits that name to the
ledger unchanged — the submit event is the network call — and completes with
the ordinary success message; a transfer with id 99 (outside `[1, 1]`) and a
syntactically invalid owner string likewise submits and succeeds.  No
`InvalidInput` failure is produced anywhere. -/
theorem no_input_validation_cex :
    (registerAssetTr sBlankName).2.contains (.submitReg "" "0xabc") = true ∧
    (registerAssetTr sBlankName).1.message = "✅ Asset registered successfully!" ∧
    (transferOwnershipTr sBadTransfer).2.contains
      (.submitTr 99 "not-an-address") = true ∧
    (transferOwnershipTr sBadTransfer).1.message = "✅ Ownership transferred!" := by
  refine ⟨by decide, by decide, by decide, by decide⟩

/-- C6 amended: the handlers perform no client-side validation at all —
whenever a contract is bound, the very first thing each mutating handler does
is submit the form fields as they stand (the raw name and hash for a
register; `Number(transferAssetId)` and the raw owner string for a transfer),
for every input including empty names, out-of-range ids and malformed
addresses; the ledger alone rejects bad inputs, surfacing as the generic
catch message. -/
theorem mutations_submit_unvalidated (s : AppState) (c : Contract)
    (hc : s.contract = some c) :
    (registerAssetTr s).2.head? = some (.submitReg s.assetName s.assetHash) ∧
    (transferOwnershipTr s).2.head? =
      some (.submitTr (jsNumberNat s.transferAssetId) s.transferTo) := by
  constructor
  · simp only [registerAssetTr, hc]
    cases hsub : c.registerSubmit s.assetName s.assetHash with
    | error e => simp [hsub]
    | ok tx =>
      cases hwait : tx.wait with
      | error e => simp [hsub, hwait]
      | ok u => simp [hsub, hwait]
  · simp only [transferOwnershipTr, hc]
    cases hsub : c.transferSubmit (jsNumberNat s.transferAssetId) s.transferTo with
    | error e => simp [hsub]
    | ok tx =>
      cases hwait : tx.wait with
      | error e => simp [hsub, hwait]
      | ok u => simp [hsub, hwait]

/-- Witness for the amended C6 at a concrete input: the blank-name register
against `okContract` submits the blank name as its first action. -/
theorem mutations_submit_unvalidated_witness :
    (registerAssetTr sBlankName).2.head? = some (.submitReg "" "0xabc") ∧
    (transferOwnershipTr sBlankName).2.head? = some (.submitTr 0 "") :=
  mutations_submit_unvalidated sBlankName okContract rfl

/-- C7: spec-modelled verification read.  For every ledger content, every id
in `[1, assetCount]` and every candidate hash, `ledgerVerify` returns `ok
true` exactly when the candidate equals the stored content hash of asset
`id`; for every id outside `[1, assetCount]` it returns the read error
rather than `false`. -/
theorem ledgerVerify_spec (assets : List Asset) (id : Nat) (hash : String) :
    (∀ a, 1 ≤ id → assets.get? (id - 1) = some a →
      (ledgerVerify assets id hash = .ok true ↔ a.hash = hash)) ∧
    (id = 0 ∨ assets.length < id →
      ledgerVerify assets id hash = .error "ReadError") := by
  constructor
  · intro a h1 hget
    have hid : ¬ id = 0 := by omega
    simp only [ledgerVerify, hid, if_false, hget]
    constructor
    · intro h
      have hb : (a.hash == hash) = true := by
        have := congrArg (fun x => match x with
          | Except.ok b => b
          | Except.error _ => false) h
        simpa using this
      exact eq_of_beq hb
    · intro h
      subst h
      simp
  · intro h
    rcases h with h | h
    · simp only [ledgerVerify, h, if_true]
    · have hid : ¬ id = 0 := by
        intro h0
        rw [h0] at h
        exact absurd h (by omega)
      have hget : assets.get? (id - 1) = none := by
        rw [List.get?_eq_none]
        omega
      simp only [ledgerVerify, hid, if_false, hget]

/-- Witness for C7 at concrete inputs: on the one-asset demo ledger, the
stored hash verifies to `ok true`, a wrong hash does not, and an
out-of-range id yields the read error. -/
theorem ledgerVerify_spec_witness :
    ledgerVerify demoLedger 1 "0xabc" = .ok true ∧
    ledgerVerify demoLedger 5 "0xZZZ" = .error "ReadError" := by
  constructor
  · exact ((ledgerVerify_spec demoLedger 1 "0xabc").1 (mkAsset 1 demoData1)
      (by decide) rfl).mpr rfl
  · exact (ledgerVerify_spec demoLedger 5 "0xZZZ").2 (Or.inr (by decide))

/-- Disconnected state carrying a prior status message. -/
def sPrior : AppState := { initialState with message := "prior status" }

/-- Counterexample to C8 at a concrete input: with no bound contract, the
register, transfer, verify and refresh handlers all return with the state
bit-for-bit unchanged and an empty event list — in particular the prior
status message survives and no `NotConnected` (or any) failure is reported.
The operations are silent no-ops, not reported failures. -/
theorem disconnected_silent_cex :
    registerAssetTr sPrior = (sPrior, []) ∧
    transferOwnershipTr sPrior = (sPrior, []) ∧
    verifyAssetTr sPrior = (sPrior, []) ∧
    clickRefresh sPrior = (sPrior, []) ∧
    sPrior.message = "prior status" ∧ sPrior.contract = none :=
  ⟨rfl, rfl, rfl, rfl, rfl, rfl⟩

/-- C8 amended: while no contract is bound, the register, transfer, verify
and refresh operations return silently (state unchanged, no event, no
reported failure); only `connectContract` invoked without a signer reports a
warning message, and that warning is its sole effect. -/
theorem disconnected_behavior (s : AppState) (c : Contract)
    (hc : s.contract = none) :
    registerAssetTr s = (s, []) ∧
    transferOwnershipTr s = (s, []) ∧
    verifyAssetTr s = (s, []) ∧
    clickRefresh s = (s, []) ∧
    (s.signer = false →
      (connectContract c s).1 = { s with message := "⚠️ Connect wallet first!" } ∧
      (connectContract c s).2 = [.report false "⚠️ Connect wallet first!"]) := by
  refine ⟨?_, ?_, ?_, ?_, ?_⟩
  · simp only [registerAssetTr, hc]
  · simp only [transferOwnershipTr, hc]
  · simp only [verifyAssetTr, hc]
  · simp only [clickRefresh, hc]
  · intro hs
    constructor
    · simp only [connectContract, hs]
      rfl
    · simp only [connectContract, hs]
      rfl

/-- Witness for the amended C8 at a concrete input: the disconnected state
with a prior message is untouched by every operation, and the contract
connect without a signer reports its warning. -/
theorem disconnected_behavior_witness :
    registerAssetTr sPrior = (sPrior, []) ∧
    transferOwnershipTr sPrior = (sPrior, []) ∧
    verifyAssetTr sPrior = (sPrior, []) ∧
    clickRefresh sPrior = (sPrior, []) ∧
    (sPrior.signer = false →
      (connectContract stubContract sPrior).1 =
        { sPrior with message := "⚠️ Connect wallet first!" } ∧
      (connectContract stubContract sPrior).2 =
        [.report false "⚠️ Connect wallet first!"]) :=
  disconnected_behavior sPrior stubContract rfl

/-- Connected state with a bound contract, an account and a cached catalog,
about to receive an identity-change event. -/
def sConnected : AppState :=
  { initialState with signer := true, contract := some stubContract,
                      account := "0xAA", assets := [mkAsset 1 demoData1] }

/-- Counterexample to C9 at a concrete input: the `accountsChanged` listener
does set the account to the first delivered identity, but it neither
invalidates nor replaces the contract binding and does not touch the cached
catalog — both fields are exactly their prior values after the event. -/
theorem accountsChanged_no_rebind_cex :
    (accountsChangedHandler ["0xBB"] sConnected).account = "0xBB" ∧
    (accountsChangedHandler ["0xBB"] sConnected).contract = sConnected.contract ∧
    (accountsChangedHandler ["0xBB"] sConnected).assets = sConnected.assets ∧
    sConnected.contract = some stubContract :=
  ⟨rfl, rfl, rfl, rfl⟩

/-- C9 amended: on an identity-change event with list `L`, the listener sets
the account to the head of `L` (the empty string when `L` is empty) and
changes nothing else — signer, contract binding, cached assets, and status
message are all left exactly as they were; no rebinding and no staleness
marking occurs. -/
theorem accountsChanged_sets_account_only (accounts : List String) (s : AppState) :
    (accountsChangedHandler accounts s).account = accounts.headD "" ∧
    (accountsChangedHandler accounts s).signer = s.signer ∧
    (accountsChangedHandler accounts s).contract = s.contract ∧
    (accountsChangedHandler accounts s).assets = s.assets ∧
    (accountsChangedHandler accounts s).message = s.message ∧
    (accountsChangedHandler accounts s).loading = s.loading :=
  ⟨rfl, rfl, rfl, rfl, rfl, rfl⟩

/-- Wallet environment in which connecting always succeeds with a fixed
address. -/
def okEnv : WalletEnv := { hasProvider := true, requestSigner := .ok "0xAA" }

theorem connectWallet_success_listeners (env : WalletEnv) (addr : String)
    (s : AppState) (p : ProviderState)
    (hp : env.hasProvider = true) (hs : env.requestSigner = .ok addr) :
    (connectWallet env s p).2.1.listeners =
      p.listeners ++ [accountsChangedHandler] := by
  simp only [connectWallet, hp, hs, if_true]

theorem connectN_listeners (env : WalletEnv) (addr : String)
    (hp : env.hasProvider = true) (hs : env.requestSigner = .ok addr) :
    ∀ (n : Nat) (s : AppState) (p : ProviderState),
      (connectN env n (s, p)).2.listeners =
        p.listeners ++ List.replicate n accountsChangedHandler := by
  intro n
  induction n with
  | zero => intro s p; simp [connectN]
  | succ n ih =>
    intro s p
    simp only [connectN]
    cases hcw : connectWallet env s p with
    | mk s2 pe =>
      cases pe with
      | mk p2 evs =>
        have hl : p2.listeners = p.listeners ++ [accountsChangedHandler] := by
          have := connectWallet_success_listeners env addr s p hp hs
          rw [hcw] at this
          exact this
        rw [ih s2 p2, hl, List.append_assoc]
        simp [List.replicate_succ]

theorem foldl_replicate_handler (accounts : List String) :
    ∀ (n : Nat) (st : AppState),
      List.foldl (fun t h => h accounts t) st
        (List.replicate n accountsChangedHandler) =
      Nat.iterate (accountsChangedHandler accounts) n st := by
  intro n
  induction n with
  | zero => intro st; simp
  | succ n ih =>
    intro st
    rw [List.replicate_succ, List.foldl_cons, ih,
        Function.iterate_succ_apply]

/-- C10: every successful `connectWallet` call registers one additional
`accountsChanged` listener with the provider and nothing ever removes one
(the only way provider state changes is one optional registration per call),
so after `n` successful calls starting from a fresh provider there are `n`
registered copies of the handler and a single identity-change event applies
the handler `n` times. -/
theorem connectWallet_listener_accumulation (env : WalletEnv) (addr : String)
    (n : Nat) (s st : AppState) (accounts : List String)
    (hp : env.hasProvider = true) (hs : env.requestSigner = .ok addr) :
    (connectN env n (s, emptyProvider)).2.listeners.length = n ∧
    dispatchAccountsChanged (connectN env n (s, emptyProvider)).2 accounts st =
      Nat.iterate (accountsChangedHandler accounts) n st ∧
    (∀ (env2 : WalletEnv) (s2 : AppState) (p2 : ProviderState),
      (connectWallet env2 s2 p2).2.1.listeners = p2.listeners ∨
      (connectWallet env2 s2 p2).2.1.listeners =
        p2.listeners ++ [accountsChangedHandler]) := by
  have hl := connectN_listeners env addr hp hs n s emptyProvider
  refine ⟨?_, ?_, ?_⟩
  · rw [hl]
    simp [emptyProvider]
  · rw [dispatchAccountsChanged, hl]
    simp only [emptyProvider, List.nil_append]
    exact foldl_replicate_handler accounts n st
  · intro env2 s2 p2
    by_cases h2 : env2.hasProvider = true
    · cases hrs : env2.requestSigner with
      | error e => left; simp [connectWallet, h2, hrs]
      | ok a => right; simp [connectWallet, h2, hrs]
    · left
      simp [connectWallet, h2]

/-- Witness for C10 at a concrete input: two successful connect calls leave
two registered listeners, and one identity-change event applies the handler
twice. -/
theorem connectWallet_listener_accumulation_witness :
    (connectN okEnv 2 (initialState, emptyProvider)).2.listeners.length = 2 ∧
    dispatchAccountsChanged (connectN okEnv 2 (initialState, emptyProvider)).2
      ["0xBB"] initialState =
      Nat.iterate (accountsChangedHandler ["0xBB"]) 2 initialState ∧
    (∀ (env2 : WalletEnv) (s2 : AppState) (p2 : ProviderState),
      (connectWallet env2 s2 p2).2.1.listeners = p2.listeners ∨
      (connectWallet env2 s2 p2).2.1.listeners =
        p2.listeners ++ [accountsChangedHandler]) :=
  connectWallet_listener_accumulation okEnv "0xAA" 2 initialState initialState
    ["0xBB"] rfl rfl

end DigitalAssets
